import Mathlib

/-!
# OmniBAR — Evaluation Run Scoring & Aggregation subsystem

Shallow embedding of the run data model, the run filter engine
(`useRunsFiltering` in the frontend), the submission validation
(`validateForm` in `Evaluate.tsx`), the sample run data
(`sampleRuns` in the frontend data module), and — modelled from the
spec for the backend pieces not present in the sources — the score
aggregator and the dashboard statistics calculator.

Strings are Lean `String`s; numeric scores are rationals (the scores
that appear are exact in IEEE doubles, so ℚ is a faithful carrier for
the comparisons and the two-way mean the code performs); timestamps
are integers (milliseconds since the epoch, the value `Date.getTime`
exposes and that the filter compares).
-/

namespace OmniBAR

/-- `EvaluationObjective` from `types/evaluation.ts`:
`"string-equality" | "llm-judge" | "combined"`. -/
inductive EvaluationObjective
  | stringEquality
  | llmJudge
  | combined
deriving DecidableEq

/-- `ModelType` from `types/evaluation.ts`. -/
inductive ModelType
  | gpt4
  | gpt35turbo
  | claude3opus
  | claude3sonnet
deriving DecidableEq

/-- `RunStatus` from `types/evaluation.ts`:
`"pending" | "running" | "completed" | "failed"`. -/
inductive RunStatus
  | pending
  | running
  | completed
  | failed
deriving DecidableEq

/-- Per-objective string-equality result (`objectives.stringEquality`). -/
structure StringEqualityResult where
  passed : Bool
  score : ℚ
deriving DecidableEq

/-- Per-objective LLM-judge result (`objectives.llmJudge`). -/
structure LLMJudgeResult where
  passed : Bool
  score : ℚ
  reasoning : Option String
deriving DecidableEq

/-- The optional `objectives` record attached to a run. -/
structure Objectives where
  stringEquality : Option StringEqualityResult
  llmJudge : Option LLMJudgeResult
deriving DecidableEq

/-- `EvaluationRun` — the unified run representation
(`types/evaluation.ts`, the snake_case shape matching the backend
response, which is the one the filtering hook reads). -/
structure EvaluationRun where
  id : String
  prompt : String
  expected_output : Option String
  agent_response : Option String
  objective : EvaluationObjective
  model : ModelType
  score : ℚ
  status : RunStatus
  timestamp : Int
  objectives : Option Objectives
  error_message : Option String
deriving DecidableEq

/-! ## String helpers (JS `toLowerCase` and `includes`) -/

/-- JS `String.prototype.toLowerCase`, character-wise (ASCII lowering of
each character, the case the data and comparisons of this code exercise). -/
def toLowerS (s : String) : String := ⟨s.data.map Char.toLower⟩

/-- JS `String.prototype.trim`: strip leading and trailing whitespace. -/
def trimS (s : String) : String :=
  ⟨((s.data.dropWhile Char.isWhitespace).reverse.dropWhile Char.isWhitespace).reverse⟩

/-- JS `String.prototype.includes` over character lists: `q` occurs as a
contiguous substring of the second argument. The empty needle is contained
in every string, as in JS. -/
def containsSubL (q : List Char) : List Char → Bool
  | [] => q.isEmpty
  | c :: t => q.isPrefixOf (c :: t) || containsSubL q t

/-- JS `hay.includes(q)` on Lean strings. -/
def strIncludes (hay q : String) : Bool := containsSubL q.data hay.data

/-! ## Filter state (`FilterState` in `RunsFilters.tsx` / the hook) -/

/-- `scoreRange` selector: `"all" | "high" | "medium" | "low"`. -/
inductive ScoreRange
  | all
  | high
  | medium
  | low
deriving DecidableEq

/-- `dateRange` selector: `"all" | "today" | "week" | "month"`. -/
inductive DateRange
  | all
  | today
  | week
  | month
deriving DecidableEq

/-- `FilterState`.  The exact-match selectors use `Option`: `none` models
the string `"all"` (the code's `filters.x !== "all"` guard), `some v` a
concrete value. -/
structure FilterState where
  searchQuery : String
  status : Option RunStatus
  model : Option ModelType
  objective : Option EvaluationObjective
  scoreRange : ScoreRange
  dateRange : DateRange
deriving DecidableEq

/-- The initial filter state in `useRunsFiltering`: empty search, every
selector at `"all"`. -/
def defaultFilters : FilterState :=
  { searchQuery := ""
    status := none
    model := none
    objective := none
    scoreRange := ScoreRange.all
    dateRange := DateRange.all }

/-- The evaluation instant of a filtering call: `now` is
`new Date().getTime()`, `startOfDay` the epoch value of
`new Date(now.getFullYear(), now.getMonth(), now.getDate())` — the
start of the current calendar day, a calendar-derived quantity we carry
as data. -/
structure FilterCtx where
  now : Int
  startOfDay : Int
deriving DecidableEq

/-- Milliseconds per day, `24 * 60 * 60 * 1000`. -/
def msPerDay : Int := 24 * 60 * 60 * 1000

/-- The search-query clause of the filter predicate in `useRunsFiltering`
(lines 23–32): skipped when the query is empty (JS falsiness of `""`),
otherwise a case-insensitive substring match against `prompt`,
`agent_response?`, `expected_output?` and `id`; an absent optional field
contributes `false` (JS optional chaining yields `undefined`, falsy). -/
def matchesSearch (query : String) (r : EvaluationRun) : Bool :=
  if query == "" then true
  else
    let searchLower := toLowerS query
    strIncludes (toLowerS r.prompt) searchLower ||
    (match r.agent_response with
     | some s => strIncludes (toLowerS s) searchLower
     | none => false) ||
    (match r.expected_output with
     | some s => strIncludes (toLowerS s) searchLower
     | none => false) ||
    strIncludes (toLowerS r.id) searchLower

/-- The score-range clause (lines 50–63): `high` rejects `score < 90`,
`medium` rejects `score < 70 || score >= 90`, `low` rejects `score >= 70`. -/
def matchesScore : ScoreRange → ℚ → Bool
  | ScoreRange.all, _ => true
  | ScoreRange.high, score => if score < 90 then false else true
  | ScoreRange.medium, score => if score < 70 ∨ 90 ≤ score then false else true
  | ScoreRange.low, score => if 70 ≤ score then false else true

/-- The date-range clause (lines 66–88): `today` rejects timestamps before
the start of the current calendar day, `week` rejects timestamps before
`now − 7·24h`, `month` before `now − 30·24h`. -/
def matchesDate : DateRange → FilterCtx → Int → Bool
  | DateRange.all, _, _ => true
  | DateRange.today, ctx, t => if t < ctx.startOfDay then false else true
  | DateRange.week, ctx, t => if t < ctx.now - 7 * msPerDay then false else true
  | DateRange.month, ctx, t => if t < ctx.now - 30 * msPerDay then false else true

/-- The whole per-run predicate of `useRunsFiltering`: the conjunction of
the six clauses (each early `return false` of the JS lambda becomes a
conjunct). -/
def runMatches (f : FilterState) (ctx : FilterCtx) (r : EvaluationRun) : Bool :=
  matchesSearch f.searchQuery r &&
  (match f.status with | none => true | some s => r.status == s) &&
  (match f.model with | none => true | some m => r.model == m) &&
  (match f.objective with | none => true | some o => r.objective == o) &&
  matchesScore f.scoreRange r.score &&
  matchesDate f.dateRange ctx r.timestamp

/-- `filteredRuns = runs.filter(run => …)` — the RunFilterEngine. -/
def filterRuns (f : FilterState) (ctx : FilterCtx)
    (runs : List EvaluationRun) : List EvaluationRun :=
  runs.filter (runMatches f ctx)

/-! ## Submission validation (`Evaluate.tsx`) -/

/-- `EvaluationFormData` from `types/evaluation.ts`. -/
structure EvaluationFormData where
  prompt : String
  expectedOutput : Option String
  objective : EvaluationObjective
  model : ModelType
deriving DecidableEq

/-- `validateForm` in `Evaluate.tsx` (also verbatim in the dashboard
variant): a prompt error when the trimmed prompt is empty, an
expected-output error when the objective is string-equality or combined
and `expectedOutput?.trim()` is falsy (absent, or empty after trimming);
returns true iff no error was recorded. -/
def validateForm (fd : EvaluationFormData) : Bool :=
  let promptError := trimS fd.prompt == ""
  let expectedOutputError :=
    (fd.objective == EvaluationObjective.stringEquality ||
     fd.objective == EvaluationObjective.combined) &&
    (match fd.expectedOutput with
     | some s => trimS s == ""
     | none => true)
  !promptError && !expectedOutputError

/-- `EvaluationRequest` from `types/evaluation.ts`. -/
structure EvaluationRequest where
  prompt : String
  expectedOutput : Option String
  objective : EvaluationObjective
  model : ModelType
  iterations : Option Nat
deriving DecidableEq

/-- `handleSubmit` in `Evaluate.tsx`: returns early (no request, hence no
pending run) when validation fails, otherwise builds the submission
payload (`expectedOutput: formData.expectedOutput || undefined` — an
empty string becomes absent). -/
def handleSubmit (fd : EvaluationFormData) : Option EvaluationRequest :=
  if validateForm fd then
    some { prompt := fd.prompt
           expectedOutput :=
             match fd.expectedOutput with
             | some s => if s == "" then none else some s
             | none => none
           objective := fd.objective
           model := fd.model
           iterations := some 1 }
  else none

/-! ## Score aggregation and dashboard statistics (backend) -/

/-- Modelled from the spec: the backend ScoreAggregator (the backend
`services.py` named in the backend README is not among the source files;
only the spec describes it).  Combined mode: `overallScore` is the
arithmetic mean of the `StringEquality` and `LLMJudge` scores, and the
run passes iff both objectives pass (conjunctive). -/
def aggregateCombined (se : StringEqualityResult) (lj : LLMJudgeResult) : ℚ × Bool :=
  ((se.score + lj.score) / 2, se.passed && lj.passed)

/-- `DashboardStats` from `types/evaluation.ts`. -/
structure DashboardStats where
  totalRuns : Nat
  averageScore : ℚ
  successRate : ℚ
deriving DecidableEq

/-- Modelled from the spec: `DashboardStatsCalculator.summarize` (backend
`services.py`, not among the source files).  `totalRuns` counts every run,
`averageScore` is the mean of `overallScore` (0 on an empty collection),
`successRate` the percentage of runs with `status = completed` and
`overallScore ≥ 70` (0 on an empty collection). -/
def summarize (runs : List EvaluationRun) : DashboardStats :=
  if runs.isEmpty then
    { totalRuns := 0, averageScore := 0, successRate := 0 }
  else
    { totalRuns := runs.length
      averageScore := (runs.map (fun r => r.score)).sum / (runs.length : ℚ)
      successRate :=
        100 * (((runs.filter (fun r =>
          r.status == RunStatus.completed && decide ((70 : ℚ) ≤ r.score))).length : ℚ))
          / (runs.length : ℚ) }

/-! ## Sample data (`sampleRuns` in the frontend data module) -/

/-- First entry of `sampleRuns` (llm-judge, score 92, completed).  The
camelCase fields of the TS literal are this run's `expected_output` /
`agent_response` data.  Timestamps are offsets from `Date.now()` at load
time, carried here as the parameter `now`. -/
def sampleRun1 (now : Int) : EvaluationRun :=
  { id := "run-1"
    prompt := "Summarize the following paragraph in one sentence."
    expected_output := some "A concise summary of the provided paragraph."
    agent_response := some "The text discusses the importance of climate change awareness."
    objective := EvaluationObjective.llmJudge
    model := ModelType.gpt4
    score := 92
    status := RunStatus.completed
    timestamp := now - 1000 * 60 * 5
    objectives := some { stringEquality := none
                         llmJudge := some { passed := true, score := 92
                                            reasoning := some "Response was accurate and concise." } }
    error_message := none }

/-- Second entry of `sampleRuns` (string-equality, score 100, completed). -/
def sampleRun2 (now : Int) : EvaluationRun :=
  { id := "run-2"
    prompt := "Translate 'Good morning' into French."
    expected_output := some "Bonjour"
    agent_response := some "Bonjour"
    objective := EvaluationObjective.stringEquality
    model := ModelType.claude3opus
    score := 100
    status := RunStatus.completed
    timestamp := now - 1000 * 60 * 60
    objectives := some { stringEquality := some { passed := true, score := 100 }
                         llmJudge := none }
    error_message := none }

/-- Third entry of `sampleRuns` (combined mode: string-equality 70/failed,
llm-judge 78/passed, overall score 74, completed). -/
def sampleRun3 (now : Int) : EvaluationRun :=
  { id := "run-3"
    prompt := "Generate a 3-sentence story about a robot who learns to paint."
    expected_output := some "A creative short story."
    agent_response := some "A robot named Arto discovered colors and emotions through art."
    objective := EvaluationObjective.combined
    model := ModelType.gpt35turbo
    score := 74
    status := RunStatus.completed
    timestamp := now - 1000 * 60 * 60 * 2
    objectives := some { stringEquality := some { passed := false, score := 70 }
                         llmJudge := some { passed := true, score := 78
                                            reasoning := some "Response was imaginative but lacked structure." } }
    error_message := none }

/-- Fourth entry of `sampleRuns` (string-equality, score 0, failed, no
objectives record). -/
def sampleRun4 (now : Int) : EvaluationRun :=
  { id := "run-4"
    prompt := "Classify the sentiment of the text: 'I love this product!'"
    expected_output := some "Positive"
    agent_response := some ""
    objective := EvaluationObjective.stringEquality
    model := ModelType.claude3sonnet
    score := 0
    status := RunStatus.failed
    timestamp := now - 1000 * 60 * 60 * 4
    objectives := none
    error_message := none }

/-- `sampleRuns`, the four hard-coded runs of the frontend data module. -/
def sampleRuns (now : Int) : List EvaluationRun :=
  [sampleRun1 now, sampleRun2 now, sampleRun3 now, sampleRun4 now]

/-! ## Shorthands used by the statements -/

/-- The default filter state with only the score-range selector active. -/
def scoreOnly (sr : ScoreRange) : FilterState :=
  { defaultFilters with scoreRange := sr }

/-- The default filter state with only the date-range selector active. -/
def dateOnly (dr : DateRange) : FilterState :=
  { defaultFilters with dateRange := dr }

/-- The default filter state with only the search query active. -/
def searchOnly (q : String) : FilterState :=
  { defaultFilters with searchQuery := q }

/-- The fields the search clause inspects, in source order, keeping only
the ones present on the run. -/
def searchFields (r : EvaluationRun) : List String :=
  [r.prompt] ++ r.agent_response.toList ++ r.expected_output.toList ++ [r.id]

/-- A run matches the query when some present searched field contains it,
case-insensitively — the spec's reading of the search clause, stated
independently of the code's short-circuit shape. -/
def matchesAnyField (q : String) (r : EvaluationRun) : Prop :=
  ∃ s ∈ searchFields r, strIncludes (toLowerS s) (toLowerS q) = true

/-- A minimal test run with the given overall score and timestamp; both
optional text fields absent. -/
def mkRun (score : ℚ) (timestamp : Int) : EvaluationRun :=
  { id := "r"
    prompt := "p"
    expected_output := none
    agent_response := none
    objective := EvaluationObjective.llmJudge
    model := ModelType.gpt4
    score := score
    status := RunStatus.completed
    timestamp := timestamp
    objectives := none
    error_message := none }


/-! ## Helper lemmas about the filter clauses -/

theorem matchesScore_high_iff (s : ℚ) : matchesScore ScoreRange.high s = true ↔ 90 ≤ s := by
  unfold matchesScore; split <;> simp_all [not_lt]

theorem matchesScore_medium_iff (s : ℚ) :
    matchesScore ScoreRange.medium s = true ↔ 70 ≤ s ∧ s < 90 := by
  unfold matchesScore; split <;> simp_all [not_lt]

theorem matchesScore_low_iff (s : ℚ) : matchesScore ScoreRange.low s = true ↔ s < 70 := by
  unfold matchesScore; split <;> simp_all [not_lt]

theorem runMatches_scoreOnly (sr : ScoreRange) (ctx : FilterCtx) (r : EvaluationRun) :
    runMatches (scoreOnly sr) ctx r = matchesScore sr r.score := by
  simp [runMatches, scoreOnly, defaultFilters, matchesSearch, matchesDate]

theorem matchesDate_today_iff (ctx : FilterCtx) (t : Int) :
    matchesDate DateRange.today ctx t = true ↔ ctx.startOfDay ≤ t := by
  unfold matchesDate; split <;> simp_all [not_lt]

theorem matchesDate_week_iff (ctx : FilterCtx) (t : Int) :
    matchesDate DateRange.week ctx t = true ↔ ctx.now - 7 * msPerDay ≤ t := by
  unfold matchesDate; split <;> simp_all [not_lt]

theorem matchesDate_month_iff (ctx : FilterCtx) (t : Int) :
    matchesDate DateRange.month ctx t = true ↔ ctx.now - 30 * msPerDay ≤ t := by
  unfold matchesDate; split <;> simp_all [not_lt]

theorem runMatches_dateOnly (dr : DateRange) (ctx : FilterCtx) (r : EvaluationRun) :
    runMatches (dateOnly dr) ctx r = matchesDate dr ctx r.timestamp := by
  simp [runMatches, dateOnly, defaultFilters, matchesSearch, matchesScore]

theorem runMatches_default (ctx : FilterCtx) (r : EvaluationRun) :
    runMatches defaultFilters ctx r = true := rfl

theorem runMatches_searchOnly (q : String) (ctx : FilterCtx) (r : EvaluationRun) :
    runMatches (searchOnly q) ctx r = matchesSearch q r := by
  simp [runMatches, searchOnly, defaultFilters, matchesScore, matchesDate]

theorem runMatches_setDate (f : FilterState) (dr : DateRange) (ctx : FilterCtx)
    (r : EvaluationRun) :
    runMatches { f with dateRange := dr } ctx r = true ↔
      (runMatches { f with dateRange := DateRange.all } ctx r = true ∧
       matchesDate dr ctx r.timestamp = true) := by
  simp [runMatches, matchesDate, Bool.and_eq_true]

theorem matchesSearch_iff (q : String) (h : q ≠ "") (r : EvaluationRun) :
    matchesSearch q r = true ↔ matchesAnyField q r := by
  have hq : (q == "") = false := beq_eq_false_iff_ne.mpr h
  unfold matchesSearch matchesAnyField searchFields
  rw [hq]
  cases r.agent_response <;> cases r.expected_output <;>
    simp [Bool.or_eq_true, or_assoc]

/-! ## The claims -/

/-- Claim C1: for every combined-mode aggregation the overall score is the
arithmetic mean of the string-equality and llm-judge scores and the pass
verdict is the conjunction of the two passed flags; on scenario B's inputs
(70/failed, 78/passed) the aggregation yields score 74 and a failing
verdict; and the combined run of `sampleRuns` carries exactly that
aggregate with status `completed`. -/
theorem combined_mode_aggregation :
    (∀ se : StringEqualityResult, ∀ lj : LLMJudgeResult,
      (aggregateCombined se lj).1 = (se.score + lj.score) / 2 ∧
      ((aggregateCombined se lj).2 = true ↔ (se.passed = true ∧ lj.passed = true))) ∧
    aggregateCombined { passed := false, score := 70 }
        { passed := true, score := 78, reasoning := none } = (74, false) ∧
    (∀ now : Int, ∀ r ∈ sampleRuns now, r.objective = EvaluationObjective.combined →
      ∃ obs se lj, r.objectives = some obs ∧ obs.stringEquality = some se ∧
        obs.llmJudge = some lj ∧ r.score = (aggregateCombined se lj).1 ∧
        (aggregateCombined se lj).2 = false ∧ r.status = RunStatus.completed) := by
  refine ⟨fun se lj => ⟨rfl, by simp [aggregateCombined]⟩, ?_, ?_⟩
  · norm_num [aggregateCombined, Prod.ext_iff]
  · intro now r hr hobj
    simp only [sampleRuns, List.mem_cons, List.not_mem_nil, or_false] at hr
    rcases hr with rfl | rfl | rfl | rfl
    · exact absurd hobj (by simp [sampleRun1])
    · exact absurd hobj (by simp [sampleRun2])
    · refine ⟨_, _, _, rfl, rfl, rfl, ?_, rfl, rfl⟩
      norm_num [sampleRun3, aggregateCombined]
    · exact absurd hobj (by simp [sampleRun4])

/-- Claim C2: with the other criteria at their defaults, `high` selects a
run iff its score is at least 90, `medium` iff the score is in [70, 90),
`low` iff the score is below 70; a run scoring exactly 90 is selected by
`high` and not `medium`, one scoring exactly 70 by `medium` and not
`low`. -/
theorem scoreRange_buckets (ctx : FilterCtx) (runs : List EvaluationRun) (r : EvaluationRun) :
    (r ∈ filterRuns (scoreOnly ScoreRange.high) ctx runs ↔ r ∈ runs ∧ 90 ≤ r.score) ∧
    (r ∈ filterRuns (scoreOnly ScoreRange.medium) ctx runs ↔
      r ∈ runs ∧ (70 ≤ r.score ∧ r.score < 90)) ∧
    (r ∈ filterRuns (scoreOnly ScoreRange.low) ctx runs ↔ r ∈ runs ∧ r.score < 70) ∧
    runMatches (scoreOnly ScoreRange.high) ctx (mkRun 90 0) = true ∧
    runMatches (scoreOnly ScoreRange.medium) ctx (mkRun 90 0) = false ∧
    runMatches (scoreOnly ScoreRange.medium) ctx (mkRun 70 0) = true ∧
    runMatches (scoreOnly ScoreRange.low) ctx (mkRun 70 0) = false := by
  refine ⟨?_, ?_, ?_, ?_, ?_, ?_, ?_⟩ <;>
    simp [filterRuns, List.mem_filter, runMatches_scoreOnly, mkRun,
      matchesScore_high_iff, matchesScore_medium_iff, matchesScore_low_iff] <;>
    norm_num [matchesScore]

/-- Claim C3: with dateRange the only active criterion, `today` selects
exactly the runs whose timestamp is at or after the start of the current
calendar day, `week` exactly those within the last 7×24 hours, `month`
exactly those within the last 30×24 hours (rolling windows off the
evaluation instant, in milliseconds). -/
theorem dateRange_windows (ctx : FilterCtx) (runs : List EvaluationRun) (r : EvaluationRun) :
    (r ∈ filterRuns (dateOnly DateRange.today) ctx runs ↔
      r ∈ runs ∧ ctx.startOfDay ≤ r.timestamp) ∧
    (r ∈ filterRuns (dateOnly DateRange.week) ctx runs ↔
      r ∈ runs ∧ ctx.now - 7 * (24 * 60 * 60 * 1000) ≤ r.timestamp) ∧
    (r ∈ filterRuns (dateOnly DateRange.month) ctx runs ↔
      r ∈ runs ∧ ctx.now - 30 * (24 * 60 * 60 * 1000) ≤ r.timestamp) := by
  refine ⟨?_, ?_, ?_⟩ <;>
    simp [filterRuns, List.mem_filter, runMatches_dateOnly, msPerDay,
      matchesDate_today_iff, matchesDate_week_iff, matchesDate_month_iff]

/-- Claim C4: with the other criteria at their defaults and a non-empty
query, the filter selects a run iff some field among prompt, agent
response, expected output and id contains the query case-insensitively. -/
theorem search_filter_selects (q : String) (h : q ≠ "") (ctx : FilterCtx)
    (runs : List EvaluationRun) (r : EvaluationRun) :
    r ∈ filterRuns (searchOnly q) ctx runs ↔ r ∈ runs ∧ matchesAnyField q r := by
  simp [filterRuns, List.mem_filter, runMatches_searchOnly, matchesSearch_iff q h]

theorem search_filter_selects_witness :
    "BONJOUR" ≠ "" ∧
    (sampleRun2 0 ∈ filterRuns (searchOnly "BONJOUR") ⟨0, 0⟩ (sampleRuns 0) ↔
      sampleRun2 0 ∈ sampleRuns 0 ∧ matchesAnyField "BONJOUR" (sampleRun2 0)) :=
  ⟨by decide,
   search_filter_selects "BONJOUR" (by decide) ⟨0, 0⟩ (sampleRuns 0) (sampleRun2 0)⟩

/-- Claim C5: a submission is rejected (and no request is issued, hence no
pending run created) iff the prompt is empty after trimming, or the
objective is string-equality or combined and the expected output is absent
or empty after trimming; every other submission passes validation. -/
theorem submission_rejected_iff (fd : EvaluationFormData) :
    handleSubmit fd = none ↔
      (trimS fd.prompt = "" ∨
       ((fd.objective = EvaluationObjective.stringEquality ∨
         fd.objective = EvaluationObjective.combined) ∧
        (fd.expectedOutput = none ∨ ∃ s, fd.expectedOutput = some s ∧ trimS s = ""))) := by
  have hv : handleSubmit fd = none ↔ validateForm fd = false := by
    unfold handleSubmit; split <;> simp_all
  rw [hv]
  unfold validateForm
  cases hobj : fd.objective <;> cases heo : fd.expectedOutput <;> simp_all <;> tauto

/-- Claim C6: filtering with every criterion at its default (empty search,
every selector at all) returns the input collection unchanged in contents
and order. -/
theorem filter_default_is_identity (ctx : FilterCtx) (runs : List EvaluationRun) :
    filterRuns defaultFilters ctx runs = runs := by
  unfold filterRuns
  exact List.filter_eq_self.mpr (fun a _ => runMatches_default ctx a)

/-- Claim C7: for every criteria value and fixed evaluation instant the
filter is idempotent. -/
theorem filter_idempotent (f : FilterState) (ctx : FilterCtx) (runs : List EvaluationRun) :
    filterRuns f ctx (filterRuns f ctx runs) = filterRuns f ctx runs := by
  unfold filterRuns
  exact List.filter_eq_self.mpr (fun a ha => (List.mem_filter.mp ha).2)

/-- Claim C8: the dashboard summary of the empty run collection is all
zeroes — total 0, average score 0, success rate 0. -/
theorem summarize_empty :
    summarize [] = { totalRuns := 0, averageScore := 0, successRate := 0 } := rfl

/-- Claim C9: the date buckets nest — under the calendar facts that the
start of the current day is at or before now and within the last 7×24
hours, a run selected by `today` is selected by `week`, one selected by
`week` is selected by `month`, and a run with a timestamp at or after now
that passes the remaining criteria is selected by all three buckets. -/
theorem dateBuckets_nested (f : FilterState) (ctx : FilterCtx) (r : EvaluationRun)
    (h1 : ctx.startOfDay ≤ ctx.now)
    (h2 : ctx.now - 7 * (24 * 60 * 60 * 1000) ≤ ctx.startOfDay) :
    (runMatches { f with dateRange := DateRange.today } ctx r = true →
     runMatches { f with dateRange := DateRange.week } ctx r = true) ∧
    (runMatches { f with dateRange := DateRange.week } ctx r = true →
     runMatches { f with dateRange := DateRange.month } ctx r = true) ∧
    (ctx.now ≤ r.timestamp →
     runMatches { f with dateRange := DateRange.all } ctx r = true →
     runMatches { f with dateRange := DateRange.today } ctx r = true ∧
     runMatches { f with dateRange := DateRange.week } ctx r = true ∧
     runMatches { f with dateRange := DateRange.month } ctx r = true) := by
  have hmd : msPerDay = 24 * 60 * 60 * 1000 := rfl
  simp only [runMatches_setDate f DateRange.today, runMatches_setDate f DateRange.week,
    runMatches_setDate f DateRange.month, matchesDate_today_iff, matchesDate_week_iff,
    matchesDate_month_iff, hmd]
  refine ⟨fun h => ⟨h.1, ?_⟩, fun h => ⟨h.1, ?_⟩,
    fun ht hall => ⟨⟨hall, ?_⟩, ⟨hall, ?_⟩, ⟨hall, ?_⟩⟩⟩
  · have := h.2; omega
  · have := h.2; omega
  · omega
  · omega
  · omega

theorem dateBuckets_nested_witness :
    ((⟨864000000, 863000000⟩ : FilterCtx).startOfDay ≤ (⟨864000000, 863000000⟩ : FilterCtx).now) ∧
    ((⟨864000000, 863000000⟩ : FilterCtx).now - 7 * (24 * 60 * 60 * 1000) ≤
      (⟨864000000, 863000000⟩ : FilterCtx).startOfDay) ∧
    (runMatches { defaultFilters with dateRange := DateRange.week }
        ⟨864000000, 863000000⟩ (mkRun 50 864000001) = true →
     runMatches { defaultFilters with dateRange := DateRange.month }
        ⟨864000000, 863000000⟩ (mkRun 50 864000001) = true) :=
  ⟨by norm_num, by norm_num,
   (dateBuckets_nested defaultFilters ⟨864000000, 863000000⟩ (mkRun 50 864000001)
      (by norm_num) (by norm_num)).2.1⟩

/-- Claim C10: the search clause is total on runs with absent optional
fields, and an absent field never contributes a match — with both optional
fields absent only prompt and id are searched, and with one absent only
the present fields are searched. -/
theorem search_absent_fields (q : String) (hq : q ≠ "") (ctx : FilterCtx)
    (runs : List EvaluationRun) (r : EvaluationRun) :
    (r.agent_response = none → r.expected_output = none →
      (r ∈ filterRuns (searchOnly q) ctx runs ↔
        r ∈ runs ∧ (strIncludes (toLowerS r.prompt) (toLowerS q) = true ∨
                    strIncludes (toLowerS r.id) (toLowerS q) = true))) ∧
    (r.agent_response = none →
      (matchesSearch q r = true ↔
        (strIncludes (toLowerS r.prompt) (toLowerS q) = true ∨
         (∃ s, r.expected_output = some s ∧ strIncludes (toLowerS s) (toLowerS q) = true) ∨
         strIncludes (toLowerS r.id) (toLowerS q) = true))) ∧
    (r.expected_output = none →
      (matchesSearch q r = true ↔
        (strIncludes (toLowerS r.prompt) (toLowerS q) = true ∨
         (∃ s, r.agent_response = some s ∧ strIncludes (toLowerS s) (toLowerS q) = true) ∨
         strIncludes (toLowerS r.id) (toLowerS q) = true))) := by
  refine ⟨fun ha he => ?_, fun ha => ?_, fun he => ?_⟩
  · simp only [filterRuns, List.mem_filter, runMatches_searchOnly, matchesSearch_iff q hq,
      matchesAnyField, searchFields, ha, he]
    simp
  · rw [matchesSearch_iff q hq]
    unfold matchesAnyField searchFields
    cases hee : r.expected_output <;> simp_all
  · rw [matchesSearch_iff q hq]
    unfold matchesAnyField searchFields
    cases hae : r.agent_response <;> simp_all

theorem search_absent_fields_witness :
    "p" ≠ "" ∧
    ((mkRun 50 0).agent_response = none → (mkRun 50 0).expected_output = none →
      (mkRun 50 0 ∈ filterRuns (searchOnly "p") ⟨0, 0⟩ [mkRun 50 0] ↔
        mkRun 50 0 ∈ [mkRun 50 0] ∧
          (strIncludes (toLowerS (mkRun 50 0).prompt) (toLowerS "p") = true ∨
           strIncludes (toLowerS (mkRun 50 0).id) (toLowerS "p") = true))) :=
  ⟨by decide, (search_absent_fields "p" (by decide) ⟨0, 0⟩ [mkRun 50 0] (mkRun 50 0)).1⟩

end OmniBAR
